import Mathlib

/-!
Shallow embedding of `timeconvs.py` (timestamp conversions between DVS,
Lidar and Realsense sensors of the Agri-EBV-autumn dataset).

Modelling conventions:
* Python floats are modelled as rationals (`ℚ`); all constants appearing in
  the calibration documents of interest are decimal and hence exact.
* The process-wide global `TIMECONVS` (initially Python `None`, replaced
  wholesale by `load_from_json_string`) is modelled as an `Option Doc`
  threaded explicitly through every conversion function: `none` is the
  initial, never-loaded state.
* Exceptions are modelled with `Except Err`.  Python raises a bare
  `RuntimeError` both at the `if not TIMECONVS` guard and at the
  malformed-rule `else` branch; the two raise sites are distinguished here
  by separate constructors (`notInitialized`, `invalidRule`) so that the
  distinct error conditions can be stated.  Comparing a float with `None`
  (e.g. `rs_ts <= None`) raises a Python `TypeError`, modelled as
  `noneComparison`; float division by zero raises `ZeroDivisionError`,
  modelled as `zeroDivision`.
* A numpy batch is modelled as a `List ℚ`; the scalar and the batch entry
  points of each conversion are modelled as two functions mirroring the
  two branches of the single Python loop.
-/

namespace Timeconvs

/-- Error outcomes of the Python code.  `notInitialized` and `invalidRule`
are both `RuntimeError` in Python, distinguished by raise site;
`noneComparison` is the `TypeError` raised when an interval endpoint that
is `None` is compared with a timestamp; `zeroDivision` is
`ZeroDivisionError`. -/
inductive Err where
  | notInitialized
  | invalidRule
  | noneComparison
  | zeroDivision
deriving DecidableEq

/-- One entry of a conversion table: `{"interval": [lo_or_null, hi_or_null],
"inner": bool, "conv_k": float, "conv_b": float}`.  `interval.1` is
`interval[0]`, `interval.2` is `interval[1]`; `none` is JSON `null`. -/
structure IntervalRule where
  interval : Option ℚ × Option ℚ
  inner : Bool
  conv_k : ℚ
  conv_b : ℚ
deriving DecidableEq

/-- The parsed `timeconvs.json` document with its ten required fields
(the four rule tables and the six scale/offset scalars). -/
structure CalibTable where
  rs_to_dvs : List IntervalRule
  lidar_to_dvs : List IntervalRule
  dvs_to_rs : List IntervalRule
  dvs_to_lidar : List IntervalRule
  dvs_timestamp_scale : ℚ
  dvs_offset_s : ℚ
  lidar_timestamp_scale : ℚ
  lidar_offset_s : ℚ
  rs_timestamp_scale : ℚ
  rs_offset_s : ℚ
deriving DecidableEq

/-- The result of `json.loads` stored into the global `TIMECONVS`: either a
well-formed calibration document (a dict with the ten required keys, hence
nonempty and truthy in Python), or one of the falsy parse results relevant
to the initialization check: `{}`, `[]`, or JSON `null` (stored as Python
`None`). -/
inductive Doc where
  | table (t : CalibTable)
  | emptyObj
  | emptyArr
  | jsonNull
deriving DecidableEq

/-- Python truthiness of a stored parsed document: a dict with the ten
required keys is nonempty, hence truthy; `{}`, `[]` and `None` are falsy. -/
def docTruthy : Doc → Bool
  | .table _ => true
  | .emptyObj => false
  | .emptyArr => false
  | .jsonNull => false

/-- `load_from_json_string`: parses the string and assigns the result to the
global `TIMECONVS`, replacing any previous value wholesale.  The JSON
parsing itself is external (`json.loads`); the function is modelled at the
level of the parsed document. -/
def load_from_json_string (_state : Option Doc) (d : Doc) : Option Doc :=
  some d

/-- The `if not TIMECONVS: raise RuntimeError` guard followed by the reads
`timeconvs[...]`: a falsy stored value (never loaded, or a falsy parse
result) raises; a truthy one is the calibration dict. -/
def getTable : Option Doc → Except Err CalibTable
  | some (.table t) => .ok t
  | _ => .error .notInitialized

/-- The per-rule membership test of the conversion loop, mirroring the
`if tc["inner"] / elif interval[0] is None / elif interval[1] is None /
else raise` chain.  The rule's shape alone determines whether the test is
well defined, so the test is returned as a predicate on timestamps:
`inner` with a missing endpoint compares the timestamp with `None`
(`TypeError`); `inner` false with `lo` absent takes the `t <= hi` branch,
which on `hi` also absent compares with `None` (`TypeError`); `inner`
false with both endpoints present falls through to `raise RuntimeError`. -/
def ruleTest (tc : IntervalRule) : Except Err (ℚ → Bool) :=
  if tc.inner then
    match tc.interval.1, tc.interval.2 with
    | some lo, some hi => .ok fun t => decide (lo < t) && decide (t ≤ hi)
    | _, _ => .error .noneComparison
  else
    match tc.interval.1, tc.interval.2 with
    | none, some hi => .ok fun t => decide (t ≤ hi)
    | none, none => .error .noneComparison
    | some lo, none => .ok fun t => decide (lo < t)
    | some _, some _ => .error .invalidRule

/-- Whether a rule's membership test holds at `t` (false for a malformed
rule, whose evaluation raises instead). -/
def matchB (tc : IntervalRule) (t : ℚ) : Bool :=
  match ruleTest tc with
  | .ok f => f t
  | .error _ => false

/-- The error a rule raises during an evaluation, if any. -/
def ruleErr (tc : IntervalRule) : Option Err :=
  match ruleTest tc with
  | .ok _ => none
  | .error e => some e

/-- A rule whose membership test evaluates without raising. -/
def ruleOk (tc : IntervalRule) : Bool :=
  (ruleErr tc).isNone

/-- The value contributed by the last rule, in list order, whose membership
test holds at `x` (`none` when no rule matches). -/
def lastVal (rules : List IntervalRule) (x : ℚ) : Option ℚ :=
  (rules.reverse.find? fun tc => matchB tc x).map fun tc =>
    x * tc.conv_k + tc.conv_b

/-- The body of the conversion loop on a scalar input, with `acc` the
current value of the output variable: each rule whose test holds
overwrites `acc` with `x * conv_k + conv_b`; a malformed rule aborts the
loop with its error. -/
def convertLoopScalar (rules : List IntervalRule) (x : ℚ) (acc : Option ℚ) :
    Except Err (Option ℚ) :=
  match rules with
  | [] => .ok acc
  | tc :: rest =>
    match ruleTest tc with
    | .error e => .error e
    | .ok test =>
      convertLoopScalar rest x
        (if test x then some (x * tc.conv_k + tc.conv_b) else acc)

/-- The scalar branch of the conversion loop: the result starts as Python
`None` and every rule whose test holds overwrites it; there is no break,
so the loop visits every rule. -/
def convertScalar (rules : List IntervalRule) (x : ℚ) : Except Err (Option ℚ) :=
  convertLoopScalar rules x none

/-- The body of the conversion loop on a batch input, with `acc` the
current output array: each rule overwrites exactly the positions where its
mask is true with `x * conv_k + conv_b`. -/
def convertLoopBatch (rules : List IntervalRule) (xs : List ℚ) (acc : List ℚ) :
    Except Err (List ℚ) :=
  match rules with
  | [] => .ok acc
  | tc :: rest =>
    match ruleTest tc with
    | .error e => .error e
    | .ok test =>
      convertLoopBatch rest xs
        (List.zipWith (fun x a => if test x then x * tc.conv_k + tc.conv_b else a) xs acc)

/-- The batch branch of the conversion loop: the output is allocated with
`np.full_like(x, 0)` and each rule overwrites exactly the masked positions. -/
def convertBatch (rules : List IntervalRule) (xs : List ℚ) : Except Err (List ℚ) :=
  convertLoopBatch rules xs (xs.map fun _ => 0)

/-- `convert_rs_to_dvs` on a scalar input. -/
def convert_rs_to_dvs (state : Option Doc) (rs_ts : ℚ) : Except Err (Option ℚ) :=
  match getTable state with
  | .error e => .error e
  | .ok timeconvs => convertScalar timeconvs.rs_to_dvs rs_ts

/-- `convert_rs_to_dvs` on a numpy-array input. -/
def convert_rs_to_dvs_batch (state : Option Doc) (rs_ts : List ℚ) : Except Err (List ℚ) :=
  match getTable state with
  | .error e => .error e
  | .ok timeconvs => convertBatch timeconvs.rs_to_dvs rs_ts

/-- `convert_lidar_to_dvs` on a scalar input. -/
def convert_lidar_to_dvs (state : Option Doc) (lidar_ts : ℚ) : Except Err (Option ℚ) :=
  match getTable state with
  | .error e => .error e
  | .ok timeconvs => convertScalar timeconvs.lidar_to_dvs lidar_ts

/-- `convert_lidar_to_dvs` on a numpy-array input. -/
def convert_lidar_to_dvs_batch (state : Option Doc) (lidar_ts : List ℚ) : Except Err (List ℚ) :=
  match getTable state with
  | .error e => .error e
  | .ok timeconvs => convertBatch timeconvs.lidar_to_dvs lidar_ts

/-- `convert_dvs_to_rs` on a scalar input. -/
def convert_dvs_to_rs (state : Option Doc) (dvs_ts : ℚ) : Except Err (Option ℚ) :=
  match getTable state with
  | .error e => .error e
  | .ok timeconvs => convertScalar timeconvs.dvs_to_rs dvs_ts

/-- `convert_dvs_to_rs` on a numpy-array input. -/
def convert_dvs_to_rs_batch (state : Option Doc) (dvs_ts : List ℚ) : Except Err (List ℚ) :=
  match getTable state with
  | .error e => .error e
  | .ok timeconvs => convertBatch timeconvs.dvs_to_rs dvs_ts

/-- `convert_dvs_to_lidar` on a scalar input. -/
def convert_dvs_to_lidar (state : Option Doc) (dvs_ts : ℚ) : Except Err (Option ℚ) :=
  match getTable state with
  | .error e => .error e
  | .ok timeconvs => convertScalar timeconvs.dvs_to_lidar dvs_ts

/-- `convert_dvs_to_lidar` on a numpy-array input. -/
def convert_dvs_to_lidar_batch (state : Option Doc) (dvs_ts : List ℚ) : Except Err (List ℚ) :=
  match getTable state with
  | .error e => .error e
  | .ok timeconvs => convertBatch timeconvs.dvs_to_lidar dvs_ts

/-- `dvs_native_to_relative`: `ts * dvs_timestamp_scale - dvs_offset_s`. -/
def dvs_native_to_relative (state : Option Doc) (ts : ℚ) : Except Err ℚ :=
  match getTable state with
  | .error e => .error e
  | .ok timeconvs => .ok (ts * timeconvs.dvs_timestamp_scale - timeconvs.dvs_offset_s)

/-- `dvs_relative_to_native`: `(ts + dvs_offset_s) / dvs_timestamp_scale`;
Python float division by zero raises `ZeroDivisionError`. -/
def dvs_relative_to_native (state : Option Doc) (ts : ℚ) : Except Err ℚ :=
  match getTable state with
  | .error e => .error e
  | .ok timeconvs =>
    if timeconvs.dvs_timestamp_scale = 0 then .error .zeroDivision
    else .ok ((ts + timeconvs.dvs_offset_s) / timeconvs.dvs_timestamp_scale)

/-- `lidar_native_to_relative`: `ts * lidar_timestamp_scale - lidar_offset_s`. -/
def lidar_native_to_relative (state : Option Doc) (ts : ℚ) : Except Err ℚ :=
  match getTable state with
  | .error e => .error e
  | .ok timeconvs => .ok (ts * timeconvs.lidar_timestamp_scale - timeconvs.lidar_offset_s)

/-- `lidar_relative_to_native`: `(ts + lidar_offset_s) / lidar_timestamp_scale`. -/
def lidar_relative_to_native (state : Option Doc) (ts : ℚ) : Except Err ℚ :=
  match getTable state with
  | .error e => .error e
  | .ok timeconvs =>
    if timeconvs.lidar_timestamp_scale = 0 then .error .zeroDivision
    else .ok ((ts + timeconvs.lidar_offset_s) / timeconvs.lidar_timestamp_scale)

/-- `rs_native_to_relative`: `ts * rs_timestamp_scale - rs_offset_s`. -/
def rs_native_to_relative (state : Option Doc) (ts : ℚ) : Except Err ℚ :=
  match getTable state with
  | .error e => .error e
  | .ok timeconvs => .ok (ts * timeconvs.rs_timestamp_scale - timeconvs.rs_offset_s)

/-- `rs_relative_to_native`: `(ts + rs_offset_s) / rs_timestamp_scale`. -/
def rs_relative_to_native (state : Option Doc) (ts : ℚ) : Except Err ℚ :=
  match getTable state with
  | .error e => .error e
  | .ok timeconvs =>
    if timeconvs.rs_timestamp_scale = 0 then .error .zeroDivision
    else .ok ((ts + timeconvs.rs_offset_s) / timeconvs.rs_timestamp_scale)

/-! Helper lemmas characterising the conversion loop. -/

/-- The last matching rule of `tc :: rest` is the last matching rule of
`rest` when one exists, else `tc` itself when it matches. -/
theorem lastVal_cons (tc : IntervalRule) (rest : List IntervalRule) (x : ℚ) :
    lastVal (tc :: rest) x =
      (lastVal rest x).or
        (if matchB tc x then some (x * tc.conv_k + tc.conv_b) else none) := by
  unfold lastVal
  rw [List.reverse_cons, List.find?_append]
  cases hfind : rest.reverse.find? (fun r => matchB r x) <;>
    cases hm : matchB tc x <;>
      simp [List.find?, hm, Option.or]

/-- A rule that passes `ruleOk` raises no error. -/
theorem ruleErr_eq_none (tc : IntervalRule) (h : ruleOk tc = true) :
    ruleErr tc = none := by
  unfold ruleOk at h
  cases he : ruleErr tc with
  | none => rfl
  | some e => rw [he] at h; simp at h

/-- A list of rules all passing `ruleOk` raises no error. -/
theorem findSome?_ruleErr_of_all_ok (rules : List IntervalRule)
    (h : rules.all ruleOk = true) : rules.findSome? ruleErr = none := by
  induction rules with
  | nil => rfl
  | cons tc rest ih =>
    simp only [List.all_cons, Bool.and_eq_true] at h
    rw [List.findSome?_cons, ruleErr_eq_none tc h.1]
    exact ih h.2

/-- The scalar loop body computes the value of the last matching rule,
falling back to the incoming accumulator, unless some rule raises, in
which case the first raised error aborts the loop. -/
theorem convertLoopScalar_eq (rules : List IntervalRule) (x : ℚ) (acc : Option ℚ) :
    convertLoopScalar rules x acc =
      match rules.findSome? ruleErr with
      | some e => .error e
      | none => .ok ((lastVal rules x).or acc) := by
  induction rules generalizing acc with
  | nil => simp [convertLoopScalar, lastVal, Option.or]
  | cons tc rest ih =>
    rw [convertLoopScalar, List.findSome?_cons]
    cases htest : ruleTest tc with
    | error e => simp [ruleErr, htest]
    | ok f =>
      have herr : ruleErr tc = none := by simp [ruleErr, htest]
      have hm : matchB tc x = f x := by simp [matchB, htest]
      rw [herr]
      dsimp only
      rw [ih]
      cases hfs : rest.findSome? ruleErr with
      | some e => rfl
      | none =>
        dsimp only
        rw [lastVal_cons]
        cases hrest : lastVal rest x <;> cases hf : f x <;>
          simp [hm, hrest, hf, Option.or]

/-- The net effect of the scalar branch: the first raised error, else the
last matching rule's value, else Python `None`. -/
theorem convertScalar_eq (rules : List IntervalRule) (x : ℚ) :
    convertScalar rules x =
      match rules.findSome? ruleErr with
      | some e => .error e
      | none => .ok (lastVal rules x) := by
  rw [convertScalar, convertLoopScalar_eq]
  cases h : rules.findSome? ruleErr with
  | some e => rfl
  | none =>
    dsimp only
    cases lastVal rules x <;> rfl

/-- Fusing two elementwise updates driven by the same index list. -/
theorem zipWith_zipWith_second (g f : ℚ → ℚ → ℚ) (xs acc : List ℚ) :
    List.zipWith g xs (List.zipWith f xs acc) =
      List.zipWith (fun x a => g x (f x a)) xs acc := by
  induction xs generalizing acc with
  | nil => simp
  | cons x xs ih => cases acc <;> simp [ih]

/-- An elementwise update that keeps every position is the identity. -/
theorem zipWith_second_eq (xs acc : List ℚ) (h : acc.length = xs.length) :
    List.zipWith (fun _ a => a) xs acc = acc := by
  induction xs generalizing acc with
  | nil => cases acc with
    | nil => rfl
    | cons a as => simp at h
  | cons x xs ih =>
    cases acc with
    | nil => simp at h
    | cons a as =>
      simp only [List.length_cons, Nat.succ.injEq] at h
      simp [ih as h]

/-- The batch loop body overwrites each position with the value of the
last rule matching that position's element, keeping the incoming
accumulator where no rule matches; a malformed rule aborts the loop with
the first raised error. -/
theorem convertLoopBatch_eq (rules : List IntervalRule) (xs acc : List ℚ)
    (h : acc.length = xs.length) :
    convertLoopBatch rules xs acc =
      match rules.findSome? ruleErr with
      | some e => .error e
      | none => .ok (List.zipWith (fun x a => (lastVal rules x).getD a) xs acc) := by
  induction rules generalizing acc with
  | nil =>
    simp only [convertLoopBatch, List.findSome?_nil, lastVal, List.reverse_nil,
      List.find?_nil, Option.map_none', Option.getD_none]
    rw [zipWith_second_eq xs acc h]
  | cons tc rest ih =>
    rw [convertLoopBatch, List.findSome?_cons]
    cases htest : ruleTest tc with
    | error e => simp [ruleErr, htest]
    | ok f =>
      have herr : ruleErr tc = none := by simp [ruleErr, htest]
      have hlen :
          (List.zipWith (fun x a => if f x = true then x * tc.conv_k + tc.conv_b else a)
            xs acc).length = xs.length := by
        rw [List.length_zipWith, h, Nat.min_self]
      rw [herr]
      dsimp only
      rw [ih _ hlen]
      cases hfs : rest.findSome? ruleErr with
      | some e => rfl
      | none =>
        dsimp only
        rw [zipWith_zipWith_second]
        have heq :
            (fun (x a : ℚ) =>
                (lastVal rest x).getD
                  (if f x = true then x * tc.conv_k + tc.conv_b else a)) =
              fun (x a : ℚ) => (lastVal (tc :: rest) x).getD a := by
          funext x a
          rw [lastVal_cons]
          have hmx : matchB tc x = f x := by simp [matchB, htest]
          cases hrest : lastVal rest x <;> cases hf : f x <;>
            simp [hmx, hrest, hf, Option.or]
        rw [heq]

/-- The net effect of the batch branch: the first raised error, else at
each position the last matching rule's value, defaulting to the initial
zero where no rule matches. -/
theorem convertBatch_eq (rules : List IntervalRule) (xs : List ℚ) :
    convertBatch rules xs =
      match rules.findSome? ruleErr with
      | some e => .error e
      | none => .ok (xs.map fun x => (lastVal rules x).getD 0) := by
  rw [convertBatch, convertLoopBatch_eq rules xs _ (by simp)]
  cases h : rules.findSome? ruleErr with
  | some e => rfl
  | none =>
    rw [List.zipWith_map_right, List.zipWith_same]

/-! Concrete calibration data used by witnesses and counterexamples. -/

/-- A calibration table with the given `rs_to_dvs` rules, empty other rule
tables, unit scales and zero offsets. -/
def mkTable (rs : List IntervalRule) : CalibTable :=
  ⟨rs, [], [], [], 1, 0, 1, 0, 1, 0⟩

/-- Two overlapping left-unbounded rules: at `x = 5` both match. -/
def overlapRules : List IntervalRule :=
  [⟨(none, some 10), false, 2, 1⟩, ⟨(none, some 20), false, 3, 0⟩]

/-- The rules of the end-to-end calibration document of the spec:
`(-inf, 10]` with `k = 2, b = 1` and `(10, +inf)` with `k = 3, b = -5`. -/
def endToEndRules : List IntervalRule :=
  [⟨(none, some 10), false, 2, 1⟩, ⟨(some 10, none), false, 3, -5⟩]

/-- A single inner rule matching only `(0, 1]`. -/
def innerOnlyRules : List IntervalRule := [⟨(some 0, some 1), true, 1, 0⟩]

/-- A calibration table whose four rule lists each hold one malformed rule
with `inner` false and both endpoints present. -/
def allBadTable : CalibTable :=
  ⟨[⟨(some 0, some 1), false, 1, 0⟩], [⟨(some 0, some 1), false, 1, 0⟩],
   [⟨(some 0, some 1), false, 1, 0⟩], [⟨(some 0, some 1), false, 1, 0⟩],
   1, 0, 1, 0, 1, 0⟩

/-- A calibration table with all scales and offsets zero. -/
def zeroScaleTable : CalibTable :=
  ⟨[], [], [], [], 0, 0, 0, 0, 0, 0⟩

/-! Claim theorems. -/

/-- C1: the membership test used by all four cross-sensor conversions: an
inner rule matches `t` iff `lo < t ∧ t ≤ hi`; a rule with `lo` absent
matches iff `t ≤ hi`; a rule with `hi` absent matches iff `lo < t`; in
particular an inner rule with `lo = 1` and `hi = 2` does not match `t = 1`
and does match `t = 2`. -/
theorem membership_test (lo hi k b t : ℚ) :
    (matchB ⟨(some lo, some hi), true, k, b⟩ t = true ↔ lo < t ∧ t ≤ hi) ∧
    (matchB ⟨(none, some hi), false, k, b⟩ t = true ↔ t ≤ hi) ∧
    (matchB ⟨(some lo, none), false, k, b⟩ t = true ↔ lo < t) ∧
    matchB ⟨(some 1, some 2), true, k, b⟩ 1 = false ∧
    matchB ⟨(some 1, some 2), true, k, b⟩ 2 = true := by
  refine ⟨?_, ?_, ?_, ?_, ?_⟩ <;> simp [matchB, ruleTest]

/-- C2 counterexample: over the table with two overlapping rules both
matching `x = 5`, the scalar conversion returns the second (last) matching
rule's value `15`, not the first matching rule's value `5 * 2 + 1 = 11`. -/
theorem scalar_not_first_match :
    matchB ⟨(none, some 10), false, 2, 1⟩ 5 = true ∧
    (5 : ℚ) * 2 + 1 = 11 ∧
    convert_rs_to_dvs (some (.table (mkTable overlapRules))) 5 = .ok (some 15) ∧
    (Except.ok (some (15 : ℚ)) : Except Err (Option ℚ)) ≠ .ok (some 11) := by
  refine ⟨by decide, by norm_num, ?_, by simp⟩
  simp [convert_rs_to_dvs, getTable, mkTable, convertScalar, convertLoopScalar,
    overlapRules, ruleTest]
  norm_num

/-- C2 (amended): each scalar cross-sensor conversion over a loaded table
whose relevant rules are all well formed returns `x * conv_k + conv_b` of
the last rule, in list order, whose membership test is true for `x`
(and Python `None` when no rule matches). -/
theorem scalar_conversions_last_match (t : CalibTable) (x : ℚ) :
    (t.rs_to_dvs.all ruleOk = true →
      convert_rs_to_dvs (some (.table t)) x = .ok (lastVal t.rs_to_dvs x)) ∧
    (t.lidar_to_dvs.all ruleOk = true →
      convert_lidar_to_dvs (some (.table t)) x = .ok (lastVal t.lidar_to_dvs x)) ∧
    (t.dvs_to_rs.all ruleOk = true →
      convert_dvs_to_rs (some (.table t)) x = .ok (lastVal t.dvs_to_rs x)) ∧
    (t.dvs_to_lidar.all ruleOk = true →
      convert_dvs_to_lidar (some (.table t)) x = .ok (lastVal t.dvs_to_lidar x)) := by
  refine ⟨fun h => ?_, fun h => ?_, fun h => ?_, fun h => ?_⟩ <;>
    simp only [convert_rs_to_dvs, convert_lidar_to_dvs, convert_dvs_to_rs,
      convert_dvs_to_lidar, getTable] <;>
    rw [convertScalar_eq, findSome?_ruleErr_of_all_ok _ h]

/-- Witness for the amended C2 at the overlapping-rules table and `x = 5`. -/
theorem scalar_conversions_last_match_witness :
    convert_rs_to_dvs (some (.table (mkTable overlapRules))) 5 =
      .ok (lastVal (mkTable overlapRules).rs_to_dvs 5) ∧
    convert_lidar_to_dvs (some (.table (mkTable overlapRules))) 5 =
      .ok (lastVal (mkTable overlapRules).lidar_to_dvs 5) ∧
    convert_dvs_to_rs (some (.table (mkTable overlapRules))) 5 =
      .ok (lastVal (mkTable overlapRules).dvs_to_rs 5) ∧
    convert_dvs_to_lidar (some (.table (mkTable overlapRules))) 5 =
      .ok (lastVal (mkTable overlapRules).dvs_to_lidar 5) :=
  ⟨(scalar_conversions_last_match (mkTable overlapRules) 5).1 (by decide),
   (scalar_conversions_last_match (mkTable overlapRules) 5).2.1 (by decide),
   (scalar_conversions_last_match (mkTable overlapRules) 5).2.2.1 (by decide),
   (scalar_conversions_last_match (mkTable overlapRules) 5).2.2.2 (by decide)⟩

/-- C6 counterexample: with the end-to-end calibration of the spec, the
first rule matches `10` (since `10 ≤ 10`) and yields `10 * 2 + 1 = 21`, so
the call returns `21`, not the claimed `11`. -/
theorem end_to_end_at_ten :
    convert_rs_to_dvs (some (.table (mkTable endToEndRules))) 10 = .ok (some 21) ∧
    (Except.ok (some (21 : ℚ)) : Except Err (Option ℚ)) ≠ .ok (some 11) := by
  refine ⟨?_, by simp⟩
  simp [convert_rs_to_dvs, getTable, mkTable, convertScalar, convertLoopScalar,
    endToEndRules, ruleTest]
  norm_num

/-- C6 (amended): with the end-to-end calibration, `convert_rs_to_dvs`
maps `5` to `11`, `10` to `21` (still the first rule, whose value there is
`10 * 2 + 1`), and `10.0001` to `25.0003`. -/
theorem end_to_end_values :
    convert_rs_to_dvs (some (.table (mkTable endToEndRules))) 5 = .ok (some 11) ∧
    convert_rs_to_dvs (some (.table (mkTable endToEndRules))) 10 = .ok (some 21) ∧
    convert_rs_to_dvs (some (.table (mkTable endToEndRules))) (100001 / 10000) =
      .ok (some (250003 / 10000)) := by
  refine ⟨?_, ?_, ?_⟩ <;>
    simp [convert_rs_to_dvs, getTable, mkTable, convertScalar, convertLoopScalar,
      endToEndRules, ruleTest] <;>
    norm_num

/-- C3: each batch cross-sensor conversion over a loaded table whose
relevant rules are all well formed returns an output of the same shape
whose every position holds `x * conv_k + conv_b` of the last rule, in list
order, matching that position's element, and the initial zero where no
rule matches (rules are applied in list order over the zero-initialised
output, each overwriting exactly its mask, so overlaps resolve
last-write-wins). -/
theorem batch_conversions_last_write (t : CalibTable) (xs : List ℚ) :
    (t.rs_to_dvs.all ruleOk = true →
      convert_rs_to_dvs_batch (some (.table t)) xs =
        .ok (xs.map fun x => (lastVal t.rs_to_dvs x).getD 0)) ∧
    (t.lidar_to_dvs.all ruleOk = true →
      convert_lidar_to_dvs_batch (some (.table t)) xs =
        .ok (xs.map fun x => (lastVal t.lidar_to_dvs x).getD 0)) ∧
    (t.dvs_to_rs.all ruleOk = true →
      convert_dvs_to_rs_batch (some (.table t)) xs =
        .ok (xs.map fun x => (lastVal t.dvs_to_rs x).getD 0)) ∧
    (t.dvs_to_lidar.all ruleOk = true →
      convert_dvs_to_lidar_batch (some (.table t)) xs =
        .ok (xs.map fun x => (lastVal t.dvs_to_lidar x).getD 0)) := by
  refine ⟨fun h => ?_, fun h => ?_, fun h => ?_, fun h => ?_⟩ <;>
    simp only [convert_rs_to_dvs_batch, convert_lidar_to_dvs_batch,
      convert_dvs_to_rs_batch, convert_dvs_to_lidar_batch, getTable] <;>
    rw [convertBatch_eq, findSome?_ruleErr_of_all_ok _ h]

/-- Witness for C3 at the overlapping-rules table and batch `[5, 25]`. -/
theorem batch_conversions_last_write_witness :
    convert_rs_to_dvs_batch (some (.table (mkTable overlapRules))) [5, 25] =
      .ok ([5, 25].map fun x => (lastVal (mkTable overlapRules).rs_to_dvs x).getD 0) ∧
    convert_lidar_to_dvs_batch (some (.table (mkTable overlapRules))) [5, 25] =
      .ok ([5, 25].map fun x => (lastVal (mkTable overlapRules).lidar_to_dvs x).getD 0) ∧
    convert_dvs_to_rs_batch (some (.table (mkTable overlapRules))) [5, 25] =
      .ok ([5, 25].map fun x => (lastVal (mkTable overlapRules).dvs_to_rs x).getD 0) ∧
    convert_dvs_to_lidar_batch (some (.table (mkTable overlapRules))) [5, 25] =
      .ok ([5, 25].map fun x => (lastVal (mkTable overlapRules).dvs_to_lidar x).getD 0) :=
  ⟨(batch_conversions_last_write (mkTable overlapRules) [5, 25]).1 (by decide),
   (batch_conversions_last_write (mkTable overlapRules) [5, 25]).2.1 (by decide),
   (batch_conversions_last_write (mkTable overlapRules) [5, 25]).2.2.1 (by decide),
   (batch_conversions_last_write (mkTable overlapRules) [5, 25]).2.2.2 (by decide)⟩

/-- C4 counterexample: with a single inner rule `(0, 1]` and the batch
`[5]`, whose only element matches no rule, the batch call returns the
zero-initialised value `0` at position `0` while the scalar call on `5`
returns Python `None`, so the batch output does not equal the elementwise
scalar output at every position. -/
theorem batch_scalar_no_match_mismatch :
    convert_rs_to_dvs_batch (some (.table (mkTable innerOnlyRules))) [5] = .ok [0] ∧
    convert_rs_to_dvs (some (.table (mkTable innerOnlyRules))) 5 = .ok none ∧
    (Except.ok (some (0 : ℚ)) : Except Err (Option ℚ)) ≠ .ok none := by
  refine ⟨?_, ?_, by simp⟩ <;>
    simp [convert_rs_to_dvs_batch, convert_rs_to_dvs, getTable, mkTable,
      convertBatch, convertLoopBatch, convertScalar, convertLoopScalar,
      innerOnlyRules, ruleTest]

/-- C4 (amended): over well-formed rules the batch branch of the interval
mapper agrees with the scalar branch at every position whose element
matches at least one rule (both resolve to the last matching rule, also
where several rules match); at a position whose element matches no rule
the batch output holds the initial zero while the scalar branch returns
Python `None`.  This covers all four cross-sensor conversions, each being
the two branches applied to its rule table. -/
theorem batch_refines_scalar (rules : List IntervalRule) (xs : List ℚ) (i : ℕ)
    (hi : i < xs.length) (h : rules.all ruleOk = true) :
    ∃ ys, convertBatch rules xs = .ok ys ∧ ys.length = xs.length ∧
      ((∃ v, convertScalar rules (xs.getD i 0) = .ok (some v) ∧ ys.getD i 0 = v) ∨
        (convertScalar rules (xs.getD i 0) = .ok none ∧ ys.getD i 0 = 0)) := by
  have hfs := findSome?_ruleErr_of_all_ok rules h
  refine ⟨xs.map fun x => (lastVal rules x).getD 0, ?_, by simp, ?_⟩
  · rw [convertBatch_eq, hfs]
  · have hget :
        (xs.map fun x => (lastVal rules x).getD 0).getD i 0 =
          (lastVal rules (xs.getD i 0)).getD 0 := by
      rw [List.getD_eq_getElem?_getD, List.getD_eq_getElem?_getD,
        List.getElem?_map, List.getElem?_eq_getElem hi]
      rfl
    have hscalar : convertScalar rules (xs.getD i 0) =
        .ok (lastVal rules (xs.getD i 0)) := by
      rw [convertScalar_eq, hfs]
    cases hl : lastVal rules (xs.getD i 0) with
    | some v =>
      exact Or.inl ⟨v, by rw [hscalar, hl], by rw [hget, hl]; rfl⟩
    | none =>
      exact Or.inr ⟨by rw [hscalar, hl], by rw [hget, hl]; rfl⟩

/-- Witness for the amended C4 at the overlapping-rules table, batch `[5]`
and position `0`. -/
theorem batch_refines_scalar_witness :
    ∃ ys, convertBatch overlapRules [5] = .ok ys ∧ ys.length = [(5 : ℚ)].length ∧
      ((∃ v, convertScalar overlapRules ([(5 : ℚ)].getD 0 0) = .ok (some v) ∧
          ys.getD 0 0 = v) ∨
        (convertScalar overlapRules ([(5 : ℚ)].getD 0 0) = .ok none ∧
          ys.getD 0 0 = 0)) :=
  batch_refines_scalar overlapRules [5] 0 (by decide) (by decide)

/-- C5: for each sensor, reading the same loaded calibration table with a
nonzero timestamp scale, `relative_to_native` applied to the result of
`native_to_relative` gives back the input:
`((ts * scale - offset) + offset) / scale = ts`. -/
theorem native_relative_roundtrip (t : CalibTable) (ts : ℚ) :
    (t.dvs_timestamp_scale ≠ 0 →
      (dvs_native_to_relative (some (.table t)) ts).bind
        (dvs_relative_to_native (some (.table t))) = .ok ts) ∧
    (t.lidar_timestamp_scale ≠ 0 →
      (lidar_native_to_relative (some (.table t)) ts).bind
        (lidar_relative_to_native (some (.table t))) = .ok ts) ∧
    (t.rs_timestamp_scale ≠ 0 →
      (rs_native_to_relative (some (.table t)) ts).bind
        (rs_relative_to_native (some (.table t))) = .ok ts) := by
  refine ⟨fun h => ?_, fun h => ?_, fun h => ?_⟩ <;>
    simp only [dvs_native_to_relative, dvs_relative_to_native,
      lidar_native_to_relative, lidar_relative_to_native,
      rs_native_to_relative, rs_relative_to_native, getTable, Except.bind,
      if_neg h, Except.ok.injEq] <;>
    field_simp

/-- Witness for C5 at a table with unit scales and `ts = 7`. -/
theorem native_relative_roundtrip_witness :
    (dvs_native_to_relative (some (.table (mkTable []))) 7).bind
      (dvs_relative_to_native (some (.table (mkTable [])))) = .ok 7 ∧
    (lidar_native_to_relative (some (.table (mkTable []))) 7).bind
      (lidar_relative_to_native (some (.table (mkTable [])))) = .ok 7 ∧
    (rs_native_to_relative (some (.table (mkTable []))) 7).bind
      (rs_relative_to_native (some (.table (mkTable [])))) = .ok 7 :=
  ⟨(native_relative_roundtrip (mkTable []) 7).1 (by decide),
   (native_relative_roundtrip (mkTable []) 7).2.1 (by decide),
   (native_relative_roundtrip (mkTable []) 7).2.2 (by decide)⟩

/-- C7 counterexample: a rule with `inner` false and both interval
endpoints absent takes the `interval[0] is None` branch and compares the
timestamp with `None`, so the call fails with the `TypeError` of that
comparison, not with the malformed-rule `RuntimeError`
(`InvalidRuleError`). -/
theorem both_absent_is_type_error :
    convert_rs_to_dvs (some (.table (mkTable [⟨(none, none), false, 1, 0⟩]))) 0 =
      .error .noneComparison ∧
    convert_rs_to_dvs_batch (some (.table (mkTable [⟨(none, none), false, 1, 0⟩]))) [0] =
      .error .noneComparison ∧
    (Except.error Err.noneComparison : Except Err (Option ℚ)) ≠
      .error .invalidRule := by
  refine ⟨rfl, rfl, by simp⟩

/-- C7 (amended): a conversion whose rule table's first raised error is
`e` fails with `e` on both scalar and batch input; a rule with `inner`
false and both endpoints present raises the malformed-rule `RuntimeError`
(`invalidRule`), while one with both endpoints absent raises the
`TypeError` of comparing the timestamp with `None` (`noneComparison`). -/
theorem malformed_rule_fails (t : CalibTable) (x : ℚ) (xs : List ℚ) (e : Err) :
    (t.rs_to_dvs.findSome? ruleErr = some e →
      convert_rs_to_dvs (some (.table t)) x = .error e ∧
      convert_rs_to_dvs_batch (some (.table t)) xs = .error e) ∧
    (t.lidar_to_dvs.findSome? ruleErr = some e →
      convert_lidar_to_dvs (some (.table t)) x = .error e ∧
      convert_lidar_to_dvs_batch (some (.table t)) xs = .error e) ∧
    (t.dvs_to_rs.findSome? ruleErr = some e →
      convert_dvs_to_rs (some (.table t)) x = .error e ∧
      convert_dvs_to_rs_batch (some (.table t)) xs = .error e) ∧
    (t.dvs_to_lidar.findSome? ruleErr = some e →
      convert_dvs_to_lidar (some (.table t)) x = .error e ∧
      convert_dvs_to_lidar_batch (some (.table t)) xs = .error e) ∧
    (∀ lo hi k b : ℚ, ruleErr ⟨(some lo, some hi), false, k, b⟩ = some .invalidRule) ∧
    (∀ k b : ℚ, ruleErr ⟨(none, none), false, k, b⟩ = some .noneComparison) := by
  refine ⟨fun h => ⟨?_, ?_⟩, fun h => ⟨?_, ?_⟩, fun h => ⟨?_, ?_⟩, fun h => ⟨?_, ?_⟩,
    fun lo hi k b => rfl, fun k b => rfl⟩ <;>
    simp only [convert_rs_to_dvs, convert_rs_to_dvs_batch, convert_lidar_to_dvs,
      convert_lidar_to_dvs_batch, convert_dvs_to_rs, convert_dvs_to_rs_batch,
      convert_dvs_to_lidar, convert_dvs_to_lidar_batch, getTable] <;>
    first
      | rw [convertScalar_eq, h]
      | rw [convertBatch_eq, h]

/-- Witness for the amended C7 at a table whose four rule lists each hold
one rule with `inner` false and both endpoints present. -/
theorem malformed_rule_fails_witness :
    convert_rs_to_dvs (some (.table allBadTable)) 0 = .error .invalidRule ∧
    convert_rs_to_dvs_batch (some (.table allBadTable)) [0] = .error .invalidRule ∧
    convert_lidar_to_dvs (some (.table allBadTable)) 0 = .error .invalidRule ∧
    convert_lidar_to_dvs_batch (some (.table allBadTable)) [0] = .error .invalidRule ∧
    convert_dvs_to_rs (some (.table allBadTable)) 0 = .error .invalidRule ∧
    convert_dvs_to_rs_batch (some (.table allBadTable)) [0] = .error .invalidRule ∧
    convert_dvs_to_lidar (some (.table allBadTable)) 0 = .error .invalidRule ∧
    convert_dvs_to_lidar_batch (some (.table allBadTable)) [0] = .error .invalidRule ∧
    ruleErr ⟨(some 0, some 1), false, 1, 0⟩ = some .invalidRule ∧
    ruleErr ⟨(none, none), false, 1, 0⟩ = some .noneComparison := by
  have h := malformed_rule_fails allBadTable 0 [0] .invalidRule
  exact ⟨(h.1 (by decide)).1, (h.1 (by decide)).2,
    (h.2.1 (by decide)).1, (h.2.1 (by decide)).2,
    (h.2.2.1 (by decide)).1, (h.2.2.1 (by decide)).2,
    (h.2.2.2.1 (by decide)).1, (h.2.2.2.1 (by decide)).2,
    h.2.2.2.2.1 0 1 1 0, h.2.2.2.2.2 1 0⟩

/-- C8: before any load (store holding Python `None`), all ten conversion
functions fail with the not-initialized `RuntimeError`; after
`load_from_json_string` of a valid calibration document every one of the
same calls succeeds. -/
theorem load_then_convert (t : CalibTable) (x : ℚ)
    (h1 : t.rs_to_dvs.all ruleOk = true) (h2 : t.lidar_to_dvs.all ruleOk = true)
    (h3 : t.dvs_to_rs.all ruleOk = true) (h4 : t.dvs_to_lidar.all ruleOk = true)
    (h5 : t.dvs_timestamp_scale ≠ 0) (h6 : t.lidar_timestamp_scale ≠ 0)
    (h7 : t.rs_timestamp_scale ≠ 0) :
    (convert_rs_to_dvs none x = .error .notInitialized ∧
     convert_lidar_to_dvs none x = .error .notInitialized ∧
     convert_dvs_to_rs none x = .error .notInitialized ∧
     convert_dvs_to_lidar none x = .error .notInitialized ∧
     dvs_native_to_relative none x = .error .notInitialized ∧
     dvs_relative_to_native none x = .error .notInitialized ∧
     lidar_native_to_relative none x = .error .notInitialized ∧
     lidar_relative_to_native none x = .error .notInitialized ∧
     rs_native_to_relative none x = .error .notInitialized ∧
     rs_relative_to_native none x = .error .notInitialized) ∧
    ((∃ v, convert_rs_to_dvs (load_from_json_string none (.table t)) x = .ok v) ∧
     (∃ v, convert_lidar_to_dvs (load_from_json_string none (.table t)) x = .ok v) ∧
     (∃ v, convert_dvs_to_rs (load_from_json_string none (.table t)) x = .ok v) ∧
     (∃ v, convert_dvs_to_lidar (load_from_json_string none (.table t)) x = .ok v) ∧
     (∃ v, dvs_native_to_relative (load_from_json_string none (.table t)) x = .ok v) ∧
     (∃ v, dvs_relative_to_native (load_from_json_string none (.table t)) x = .ok v) ∧
     (∃ v, lidar_native_to_relative (load_from_json_string none (.table t)) x = .ok v) ∧
     (∃ v, lidar_relative_to_native (load_from_json_string none (.table t)) x = .ok v) ∧
     (∃ v, rs_native_to_relative (load_from_json_string none (.table t)) x = .ok v) ∧
     (∃ v, rs_relative_to_native (load_from_json_string none (.table t)) x = .ok v)) := by
  refine ⟨⟨rfl, rfl, rfl, rfl, rfl, rfl, rfl, rfl, rfl, rfl⟩,
    ⟨lastVal t.rs_to_dvs x, ?_⟩, ⟨lastVal t.lidar_to_dvs x, ?_⟩,
    ⟨lastVal t.dvs_to_rs x, ?_⟩, ⟨lastVal t.dvs_to_lidar x, ?_⟩,
    ⟨x * t.dvs_timestamp_scale - t.dvs_offset_s, rfl⟩,
    ⟨(x + t.dvs_offset_s) / t.dvs_timestamp_scale, ?_⟩,
    ⟨x * t.lidar_timestamp_scale - t.lidar_offset_s, rfl⟩,
    ⟨(x + t.lidar_offset_s) / t.lidar_timestamp_scale, ?_⟩,
    ⟨x * t.rs_timestamp_scale - t.rs_offset_s, rfl⟩,
    ⟨(x + t.rs_offset_s) / t.rs_timestamp_scale, ?_⟩⟩
  · simp only [load_from_json_string, convert_rs_to_dvs, getTable]
    rw [convertScalar_eq, findSome?_ruleErr_of_all_ok _ h1]
  · simp only [load_from_json_string, convert_lidar_to_dvs, getTable]
    rw [convertScalar_eq, findSome?_ruleErr_of_all_ok _ h2]
  · simp only [load_from_json_string, convert_dvs_to_rs, getTable]
    rw [convertScalar_eq, findSome?_ruleErr_of_all_ok _ h3]
  · simp only [load_from_json_string, convert_dvs_to_lidar, getTable]
    rw [convertScalar_eq, findSome?_ruleErr_of_all_ok _ h4]
  · simp only [load_from_json_string, dvs_relative_to_native, getTable]
    rw [if_neg h5]
  · simp only [load_from_json_string, lidar_relative_to_native, getTable]
    rw [if_neg h6]
  · simp only [load_from_json_string, rs_relative_to_native, getTable]
    rw [if_neg h7]

/-- Witness for C8 at a valid table with empty rule lists and unit
scales. -/
theorem load_then_convert_witness :
    (convert_rs_to_dvs none 0 = .error .notInitialized ∧
     convert_lidar_to_dvs none 0 = .error .notInitialized ∧
     convert_dvs_to_rs none 0 = .error .notInitialized ∧
     convert_dvs_to_lidar none 0 = .error .notInitialized ∧
     dvs_native_to_relative none 0 = .error .notInitialized ∧
     dvs_relative_to_native none 0 = .error .notInitialized ∧
     lidar_native_to_relative none 0 = .error .notInitialized ∧
     lidar_relative_to_native none 0 = .error .notInitialized ∧
     rs_native_to_relative none 0 = .error .notInitialized ∧
     rs_relative_to_native none 0 = .error .notInitialized) ∧
    ((∃ v, convert_rs_to_dvs (load_from_json_string none (.table (mkTable []))) 0 = .ok v) ∧
     (∃ v, convert_lidar_to_dvs (load_from_json_string none (.table (mkTable []))) 0 = .ok v) ∧
     (∃ v, convert_dvs_to_rs (load_from_json_string none (.table (mkTable []))) 0 = .ok v) ∧
     (∃ v, convert_dvs_to_lidar (load_from_json_string none (.table (mkTable []))) 0 = .ok v) ∧
     (∃ v, dvs_native_to_relative (load_from_json_string none (.table (mkTable []))) 0 = .ok v) ∧
     (∃ v, dvs_relative_to_native (load_from_json_string none (.table (mkTable []))) 0 = .ok v) ∧
     (∃ v, lidar_native_to_relative (load_from_json_string none (.table (mkTable []))) 0 = .ok v) ∧
     (∃ v, lidar_relative_to_native (load_from_json_string none (.table (mkTable []))) 0 = .ok v) ∧
     (∃ v, rs_native_to_relative (load_from_json_string none (.table (mkTable []))) 0 = .ok v) ∧
     (∃ v, rs_relative_to_native (load_from_json_string none (.table (mkTable []))) 0 = .ok v)) :=
  load_then_convert (mkTable []) 0 (by decide) (by decide) (by decide) (by decide)
    (by decide) (by decide) (by decide)

/-- C9: a load whose parsed document is falsy (`{}`, `[]`, or JSON `null`)
leaves every conversion failing with the same not-initialized
`RuntimeError` as if no load had ever occurred, because the guard
`if not TIMECONVS` tests truthiness of the stored document rather than
its presence. -/
theorem falsy_load_still_uninitialized (d : Doc) (x : ℚ)
    (h : docTruthy d = false) :
    convert_rs_to_dvs (load_from_json_string none d) x = .error .notInitialized ∧
    convert_lidar_to_dvs (load_from_json_string none d) x = .error .notInitialized ∧
    convert_dvs_to_rs (load_from_json_string none d) x = .error .notInitialized ∧
    convert_dvs_to_lidar (load_from_json_string none d) x = .error .notInitialized ∧
    dvs_native_to_relative (load_from_json_string none d) x = .error .notInitialized ∧
    dvs_relative_to_native (load_from_json_string none d) x = .error .notInitialized ∧
    lidar_native_to_relative (load_from_json_string none d) x = .error .notInitialized ∧
    lidar_relative_to_native (load_from_json_string none d) x = .error .notInitialized ∧
    rs_native_to_relative (load_from_json_string none d) x = .error .notInitialized ∧
    rs_relative_to_native (load_from_json_string none d) x = .error .notInitialized := by
  cases d with
  | table t => simp [docTruthy] at h
  | emptyObj => exact ⟨rfl, rfl, rfl, rfl, rfl, rfl, rfl, rfl, rfl, rfl⟩
  | emptyArr => exact ⟨rfl, rfl, rfl, rfl, rfl, rfl, rfl, rfl, rfl, rfl⟩
  | jsonNull => exact ⟨rfl, rfl, rfl, rfl, rfl, rfl, rfl, rfl, rfl, rfl⟩

/-- Witness for C9: loading the empty JSON object. -/
theorem falsy_load_still_uninitialized_witness :
    convert_rs_to_dvs (load_from_json_string none .emptyObj) 0 = .error .notInitialized ∧
    convert_lidar_to_dvs (load_from_json_string none .emptyObj) 0 = .error .notInitialized ∧
    convert_dvs_to_rs (load_from_json_string none .emptyObj) 0 = .error .notInitialized ∧
    convert_dvs_to_lidar (load_from_json_string none .emptyObj) 0 = .error .notInitialized ∧
    dvs_native_to_relative (load_from_json_string none .emptyObj) 0 = .error .notInitialized ∧
    dvs_relative_to_native (load_from_json_string none .emptyObj) 0 = .error .notInitialized ∧
    lidar_native_to_relative (load_from_json_string none .emptyObj) 0 = .error .notInitialized ∧
    lidar_relative_to_native (load_from_json_string none .emptyObj) 0 = .error .notInitialized ∧
    rs_native_to_relative (load_from_json_string none .emptyObj) 0 = .error .notInitialized ∧
    rs_relative_to_native (load_from_json_string none .emptyObj) 0 = .error .notInitialized :=
  falsy_load_still_uninitialized .emptyObj 0 (by decide)

/-- C10: for each sensor, a zero timestamp scale in the loaded table makes
the relative-to-native conversion fail with `ZeroDivisionError`, while the
native-to-relative direction still succeeds. -/
theorem zero_scale_division (t : CalibTable) (ts : ℚ) :
    (t.dvs_timestamp_scale = 0 →
      dvs_relative_to_native (some (.table t)) ts = .error .zeroDivision ∧
      ∃ v, dvs_native_to_relative (some (.table t)) ts = .ok v) ∧
    (t.lidar_timestamp_scale = 0 →
      lidar_relative_to_native (some (.table t)) ts = .error .zeroDivision ∧
      ∃ v, lidar_native_to_relative (some (.table t)) ts = .ok v) ∧
    (t.rs_timestamp_scale = 0 →
      rs_relative_to_native (some (.table t)) ts = .error .zeroDivision ∧
      ∃ v, rs_native_to_relative (some (.table t)) ts = .ok v) := by
  refine ⟨fun h => ⟨?_, ⟨_, rfl⟩⟩, fun h => ⟨?_, ⟨_, rfl⟩⟩, fun h => ⟨?_, ⟨_, rfl⟩⟩⟩ <;>
    simp only [dvs_relative_to_native, lidar_relative_to_native,
      rs_relative_to_native, getTable] <;>
    rw [if_pos h]

/-- Witness for C10 at a table with all scales zero and `ts = 3`. -/
theorem zero_scale_division_witness :
    (dvs_relative_to_native (some (.table zeroScaleTable)) 3 = .error .zeroDivision ∧
      ∃ v, dvs_native_to_relative (some (.table zeroScaleTable)) 3 = .ok v) ∧
    (lidar_relative_to_native (some (.table zeroScaleTable)) 3 = .error .zeroDivision ∧
      ∃ v, lidar_native_to_relative (some (.table zeroScaleTable)) 3 = .ok v) ∧
    (rs_relative_to_native (some (.table zeroScaleTable)) 3 = .error .zeroDivision ∧
      ∃ v, rs_native_to_relative (some (.table zeroScaleTable)) 3 = .ok v) :=
  ⟨(zero_scale_division zeroScaleTable 3).1 (by decide),
   (zero_scale_division zeroScaleTable 3).2.1 (by decide),
   (zero_scale_division zeroScaleTable 3).2.2 (by decide)⟩

end Timeconvs
